import Mathlib

/-!
Shallow embedding of the RFQ settlement engine (`src/contracts/src/RFQSettlement.sol`,
second revision in the file, together with its libraries `DepositManager.sol`,
`RFQValidation.sol`, `WormholeCodec.sol` and the `TokenTransfer` library).

Conventions of the embedding:
* `uint256` amounts, timestamps and nonces are `Nat` (Solidity 0.8 reverts on
  overflow/underflow, so unbounded `Nat` agrees with the source wherever a
  subtraction is guarded, which is everywhere a subtraction occurs here);
* `address` is `Nat` with `0` the zero address; `bytes32` keys are `Nat`;
* a reverting call is `.error e`: the EVM rolls back every state write of the
  call, so an erroring operation leaves the state exactly as it was
  (`stepOp` makes that rollback explicit);
* external effects of a successful call (outgoing native-coin sends, ERC20
  transfers, Wormhole messages) are collected in an `Eff` record;
* the Wormhole relayer, ERC20 token contracts and `keccak256` id derivation
  are external collaborators, modelled as oracles carried by the call
  context `Ctx` (`deliveryCost`, `erc20Ok`, `recvOk`, `deriveId`);
* `abi`-encoded message payloads are modelled symbolically by the `Payload`
  type, mirroring the structured encode/decode pairs of `WormholeCodec`;
* the `bytes32 → address` truncation of `sourceAddress` in
  `receiveWormholeMessages` is modelled by passing the address directly;
* non-payable entry points (`withdrawDeposit`, `reclaimCrossChainDeposit`,
  `setTrustedContract`) reject attached value at ABI dispatch, which the
  embedding makes explicit with a `NonPayable` error.
-/

namespace RFQ

/-- Account addresses (`address`); `0` is the zero address. -/
abbrev Addr := Nat

/-- `bytes32` keys: RFQ identifiers and delivery hashes. -/
abbrev B32 := Nat

/-- Wormhole chain identifiers (`uint16`). -/
abbrev ChainId := Nat

/-- Sentinel address for the native coin (constant `ETH` in `RFQSettlement`). -/
def ETH : Addr := 0xEeeeeEeeeEeEeeEeEeEeeEEEeeeeEeeeeeeeEEeE

/-- Constant `MINIMUM_EXPIRY_DURATION` (15 minutes, in seconds). -/
def MINIMUM_EXPIRY_DURATION : Nat := 15 * 60

/-- Pointwise update of a map modelled as a function. -/
def setMap {α : Type} [DecidableEq α] {β : Type} (m : α → β) (k : α) (v : β) : α → β :=
  fun x => if x = k then v else m x

/-- The `CrossChainDeposit` struct. -/
structure CrossChainDeposit where
  creator : Addr
  baseToken : Addr
  quoteToken : Addr
  baseAmount : Nat
  quoteAmount : Nat
  sourceChainId : ChainId
  destChainId : ChainId
  expiryTimestamp : Nat
  settled : Bool
  acceptorOnSourceChain : Addr
  quoteTokenRecipient : Addr
deriving DecidableEq, Repr

/-- The all-zero struct a Solidity mapping yields for an absent key. -/
def emptyDeposit : CrossChainDeposit :=
  ⟨0, 0, 0, 0, 0, 0, 0, 0, false, 0, 0⟩

/-- `WormholeCodec.DepositNotificationParams`. -/
structure DepositNotificationParams where
  rfqId : B32
  creator : Addr
  baseToken : Addr
  quoteToken : Addr
  baseAmount : Nat
  quoteAmount : Nat
  expiryTimestamp : Nat
  acceptorOnSourceChain : Addr
  quoteTokenRecipient : Addr
deriving DecidableEq, Repr

/-- Symbolic form of an `abi`-encoded Wormhole payload: the two structured
message kinds of `WormholeCodec`, or a payload with any other leading tag. -/
inductive Payload where
  | depositNotice (p : DepositNotificationParams)
  | settleConfirm (rfqId : B32)
  | badTag (tag : Nat)
deriving DecidableEq, Repr

/-- `WormholeCodec.getMessageType`: the leading `uint8` tag of a payload. -/
def getMessageType : Payload → Nat
  | .depositNotice _ => 0
  | .settleConfirm _ => 1
  | .badTag t => t

/-- The revert reasons of the engine: the custom errors declared in
`RFQSettlement`, plus `RequireFail` for `require`/`revert` with a string
reason, `NotOwner` for the `onlyOwner` modifier, `ERC20TransferFailed` for a
failing `SafeERC20` transfer, and `NonPayable` for value attached to a
non-payable entry point. -/
inductive Err where
  | ETHAmountMismatch
  | UnexpectedETHSent
  | ETHTransferFailed
  | InvalidDepositAmount
  | NoDepositFound
  | WithdrawalFailed
  | InsufficientETHDeposit
  | InvalidChainId
  | ExpiredDeposit
  | InsufficientWormholeFee
  | UnauthorizedWormholeSource
  | DepositNotFound
  | DepositAlreadySettled
  | ExpiryTooShort
  | MessageAlreadyProcessed
  | DepositNotExpired
  | NotDepositCreator
  | ERC20TransferFailed
  | NotOwner
  | NonPayable
  | RequireFail (reason : String)
deriving DecidableEq, Repr

/-- The contract's storage. -/
structure EngineState where
  ethDeposits : B32 → Nat
  crossChainDeposits : B32 → CrossChainDeposit
  trustedContracts : ChainId → Addr
  consumedMessages : B32 → Bool
  chainNonces : ChainId → Nat

/-- Per-call environment: transaction fields, the immutable relayer address,
the owner, and the oracles for the external collaborators. -/
structure Ctx where
  msgSender : Addr
  msgValue : Nat
  timestamp : Nat
  chainid : Nat
  self : Addr
  owner : Addr
  relayer : Addr
  deliveryCost : ChainId → Nat
  recvOk : Addr → Bool
  erc20Ok : Addr → Addr → Addr → Nat → Bool
  deriveId : Nat → ChainId → Addr → Nat → Nat → B32

/-- One outgoing Wormhole message (`sendPayloadToEvm` call). -/
structure SentMessage where
  targetChain : ChainId
  targetAddr : Addr
  payload : Payload
  fee : Nat
  refundChain : ChainId
  refundAddr : Addr
deriving DecidableEq, Repr

/-- External effects of one successful call: outgoing native-coin sends
`(recipient, amount)`, ERC20 transfers `(token, from, to, amount)`, and
outgoing Wormhole messages. -/
structure Eff where
  ethOut : List (Addr × Nat)
  tokenOut : List (Addr × Addr × Addr × Nat)
  msgsOut : List SentMessage
deriving DecidableEq, Repr

/-- No external effects. -/
def noEff : Eff := ⟨[], [], []⟩

/-- Result of one entry-point call: either a revert reason, or the new
storage together with the call's external effects. -/
abbrev CallResult := Except Err (EngineState × Eff)

/-- `TokenTransfer.sendETH` / `_sendETH`: a low-level native send that
reverts with `ETHTransferFailed` when the recipient rejects it. -/
def sendETH (c : Ctx) (recipient : Addr) (amount : Nat) : Except Err (List (Addr × Nat)) :=
  if c.recvOk recipient then .ok [(recipient, amount)] else .error .ETHTransferFailed

/-- A `SafeERC20.safeTransferFrom`; the token contract is external, so its
success is an oracle of the context. -/
def erc20TransferFrom (c : Ctx) (token fromAddr toAddr : Addr) (amount : Nat) :
    Except Err (List (Addr × Addr × Addr × Nat)) :=
  if c.erc20Ok token fromAddr toAddr amount then .ok [(token, fromAddr, toAddr, amount)]
  else .error .ERC20TransferFailed

/-- `TokenTransfer.unlockETH`: revert with `InsufficientETHDeposit` when the
recorded escrow is below `amount`, otherwise decrement the record first and
then send. -/
def unlockETH (c : Ctx) (rfqId : B32) (recipient : Addr) (amount : Nat)
    (ethDeposits : B32 → Nat) : Except Err ((B32 → Nat) × List (Addr × Nat)) :=
  if ethDeposits rfqId < amount then .error .InsufficientETHDeposit
  else
    match sendETH c recipient amount with
    | .error e => .error e
    | .ok outs => .ok (setMap ethDeposits rfqId (ethDeposits rfqId - amount), outs)

/-- `TokenTransfer.lockTokens`: for the native sentinel require
`msg.value ≥ amount` (else `InvalidDepositAmount`) and record `amount` under
`rfqId`; for an ERC20 pull `amount` from the caller into the contract. -/
def lockTokens (c : Ctx) (token fromAddr : Addr) (amount : Nat) (rfqId : B32)
    (ethDeposits : B32 → Nat) :
    Except Err ((B32 → Nat) × List (Addr × Addr × Addr × Nat)) :=
  if token = ETH then
    if c.msgValue < amount then .error .InvalidDepositAmount
    else .ok (setMap ethDeposits rfqId amount, [])
  else
    match erc20TransferFrom c token fromAddr c.self amount with
    | .error e => .error e
    | .ok ts => .ok (ethDeposits, ts)

/-- `RFQValidation.validateExecuteParams`. -/
def validateExecuteParams (creator baseToken quoteToken : Addr)
    (baseAmount quoteAmount : Nat) : Except Err Unit :=
  if baseToken = 0 ∨ quoteToken = 0 then .error (.RequireFail "Invalid token address")
  else if baseAmount = 0 ∨ quoteAmount = 0 then .error (.RequireFail "Invalid amount")
  else if creator = 0 then .error (.RequireFail "Invalid creator address")
  else .ok ()

/-- `_validateMsgValue`: native quote requires `msg.value = quoteAmount`
(else `ETHAmountMismatch`); any other quote token requires zero attached
value (else `UnexpectedETHSent`). -/
def validateMsgValue (c : Ctx) (quoteToken : Addr) (quoteAmount : Nat) : Except Err Unit :=
  if quoteToken = ETH then
    if c.msgValue ≠ quoteAmount then .error .ETHAmountMismatch else .ok ()
  else
    if 0 < c.msgValue then .error .UnexpectedETHSent else .ok ()

/-- `depositForRFQ` via `DepositManager.createDeposit`: reject a zero-value
deposit, otherwise overwrite the escrow record with `msg.value`. -/
def runDepositForRFQ (c : Ctx) (s : EngineState) (rfqId : B32) : CallResult :=
  if c.msgValue = 0 then .error .InvalidDepositAmount
  else .ok ({ s with ethDeposits := setMap s.ethDeposits rfqId c.msgValue }, noEff)

/-- `withdrawDeposit` via `DepositManager.withdrawDeposit`: reject when no
deposit is recorded, clear the record before sending, send the full amount
to the caller, revert `WithdrawalFailed` when the send fails. -/
def runWithdrawDeposit (c : Ctx) (s : EngineState) (rfqId : B32) : CallResult :=
  if c.msgValue ≠ 0 then .error .NonPayable
  else if s.ethDeposits rfqId = 0 then .error .NoDepositFound
  else if c.recvOk c.msgSender then
    .ok ({ s with ethDeposits := setMap s.ethDeposits rfqId 0 },
      ⟨[(c.msgSender, s.ethDeposits rfqId)], [], []⟩)
  else .error .WithdrawalFailed

/-- `_transferBaseToken`: native base is released from the escrow record
keyed by `rfqId`; an ERC20 base is pulled from the creator to the acceptor. -/
def transferBaseToken (c : Ctx) (rfqId : B32) (creator acceptor baseToken : Addr)
    (baseAmount : Nat) (ethDeposits : B32 → Nat) :
    Except Err ((B32 → Nat) × List (Addr × Nat) × List (Addr × Addr × Addr × Nat)) :=
  if baseToken = ETH then
    match unlockETH c rfqId acceptor baseAmount ethDeposits with
    | .error e => .error e
    | .ok (m, outs) => .ok (m, outs, [])
  else
    match erc20TransferFrom c baseToken creator acceptor baseAmount with
    | .error e => .error e
    | .ok ts => .ok (ethDeposits, [], ts)

/-- `_transferQuoteToken`: native quote is sent from the attached value to
the creator; an ERC20 quote is pulled from the acceptor to the creator. -/
def transferQuoteToken (c : Ctx) (acceptor creator quoteToken : Addr) (quoteAmount : Nat) :
    Except Err (List (Addr × Nat) × List (Addr × Addr × Addr × Nat)) :=
  if quoteToken = ETH then
    match sendETH c creator quoteAmount with
    | .error e => .error e
    | .ok outs => .ok (outs, [])
  else
    match erc20TransferFrom c quoteToken acceptor creator quoteAmount with
    | .error e => .error e
    | .ok ts => .ok ([], ts)

/-- `execute`: same-chain atomic swap. -/
def runExecute (c : Ctx) (s : EngineState) (rfqId : B32) (creator baseToken quoteToken : Addr)
    (baseAmount quoteAmount : Nat) : CallResult :=
  match validateExecuteParams creator baseToken quoteToken baseAmount quoteAmount with
  | .error e => .error e
  | .ok _ =>
    match validateMsgValue c quoteToken quoteAmount with
    | .error e => .error e
    | .ok _ =>
      match transferBaseToken c rfqId creator c.msgSender baseToken baseAmount s.ethDeposits with
      | .error e => .error e
      | .ok (m1, eth1, tok1) =>
        match transferQuoteToken c c.msgSender creator quoteToken quoteAmount with
        | .error e => .error e
        | .ok (eth2, tok2) =>
          .ok ({ s with ethDeposits := m1 }, ⟨eth1 ++ eth2, tok1 ++ tok2, []⟩)

/-- `setTrustedContract` (owner only). -/
def runSetTrustedContract (c : Ctx) (s : EngineState) (chainId : ChainId)
    (contractAddress : Addr) : CallResult :=
  if c.msgValue ≠ 0 then .error .NonPayable
  else if c.msgSender ≠ c.owner then .error .NotOwner
  else if chainId = 0 then .error (.RequireFail "Invalid chain ID")
  else if contractAddress = 0 then .error (.RequireFail "Invalid contract address")
  else .ok ({ s with trustedContracts := setMap s.trustedContracts chainId contractAddress }, noEff)

/-- `initiateCrossChainDeposit`: validate, derive a fresh id from the
per-destination nonce, lock the base asset, persist the deposit record with
`settled := false`, and submit the deposit notification, paying the relay
fee out of the attached value. -/
def runInitiate (c : Ctx) (s : EngineState) (destChainId : ChainId)
    (baseToken quoteToken : Addr) (baseAmount quoteAmount expiryDuration : Nat)
    (acceptorOnSourceChain quoteTokenRecipient refundAddress : Addr) : CallResult :=
  if destChainId = 0 then .error .InvalidChainId
  else if s.trustedContracts destChainId = 0 then .error .InvalidChainId
  else if baseToken = 0 ∨ quoteToken = 0 then .error (.RequireFail "Invalid token address")
  else if baseAmount = 0 ∨ quoteAmount = 0 then .error (.RequireFail "Invalid amount")
  else if expiryDuration < MINIMUM_EXPIRY_DURATION then .error .ExpiryTooShort
  else if acceptorOnSourceChain = 0 then .error (.RequireFail "Invalid acceptor address")
  else if quoteTokenRecipient = 0 then .error (.RequireFail "Invalid recipient address")
  else
    let rfqId := c.deriveId c.chainid destChainId c.msgSender (s.chainNonces destChainId) c.timestamp
    let expiryTimestamp := c.timestamp + expiryDuration
    match lockTokens c baseToken c.msgSender baseAmount rfqId s.ethDeposits with
    | .error e => .error e
    | .ok (deps, toks) =>
      let record : CrossChainDeposit :=
        ⟨c.msgSender, baseToken, quoteToken, baseAmount, quoteAmount,
          c.chainid, destChainId, expiryTimestamp, false,
          acceptorOnSourceChain, quoteTokenRecipient⟩
      let wormholeFee := if baseToken = ETH then c.msgValue - baseAmount else c.msgValue
      if wormholeFee < c.deliveryCost destChainId then .error .InsufficientWormholeFee
      else
        let payload : Payload := .depositNotice
          ⟨rfqId, c.msgSender, baseToken, quoteToken, baseAmount, quoteAmount,
            expiryTimestamp, acceptorOnSourceChain, quoteTokenRecipient⟩
        .ok ({ s with
                ethDeposits := deps,
                crossChainDeposits := setMap s.crossChainDeposits rfqId record,
                chainNonces := setMap s.chainNonces destChainId (s.chainNonces destChainId + 1) },
          ⟨[], toks,
            [⟨destChainId, s.trustedContracts destChainId, payload, wormholeFee,
              c.chainid, refundAddress⟩]⟩)

/-- `_handleDepositNotification`: reject an expired notification, otherwise
store (overwriting) the deposit record on this chain with `settled := false`. -/
def handleDepositNotification (c : Ctx) (s : EngineState) (p : DepositNotificationParams)
    (sourceChain : ChainId) : CallResult :=
  if p.expiryTimestamp < c.timestamp then .error .ExpiredDeposit
  else
    let record : CrossChainDeposit :=
      ⟨p.creator, p.baseToken, p.quoteToken, p.baseAmount, p.quoteAmount,
        sourceChain, c.chainid, p.expiryTimestamp, false,
        p.acceptorOnSourceChain, p.quoteTokenRecipient⟩
    .ok ({ s with crossChainDeposits := setMap s.crossChainDeposits p.rfqId record }, noEff)

/-- `_handleSettlementConfirmation`: the record must exist and be unsettled;
mark it settled, then release the base asset to `acceptorOnSourceChain` —
for a native base the amount released is the full current escrow record
`ethDeposits[rfqId]`, for an ERC20 the stored `baseAmount`. -/
def handleSettlementConfirmation (c : Ctx) (s : EngineState) (rfqId : B32) : CallResult :=
  let d := s.crossChainDeposits rfqId
  if d.creator = 0 then .error .DepositNotFound
  else if d.settled then .error .DepositAlreadySettled
  else
    let s' := { s with crossChainDeposits := setMap s.crossChainDeposits rfqId { d with settled := true } }
    if d.baseToken = ETH then
      match unlockETH c rfqId d.acceptorOnSourceChain (s.ethDeposits rfqId) s.ethDeposits with
      | .error e => .error e
      | .ok (m, outs) => .ok ({ s' with ethDeposits := m }, ⟨outs, [], []⟩)
    else
      match erc20TransferFrom c d.baseToken c.self d.acceptorOnSourceChain d.baseAmount with
      | .error e => .error e
      | .ok ts => .ok (s', ⟨[], ts, []⟩)

/-- `receiveWormholeMessages`: authenticate the caller and the source
contract, reject an already consumed delivery hash, mark the hash consumed
before dispatching, then dispatch on the leading message tag. -/
def runReceive (c : Ctx) (s : EngineState) (payload : Payload) (sourceAddress : Addr)
    (sourceChain : ChainId) (deliveryHash : B32) : CallResult :=
  if c.msgSender ≠ c.relayer then .error .UnauthorizedWormholeSource
  else if sourceAddress ≠ s.trustedContracts sourceChain ∨ s.trustedContracts sourceChain = 0 then
    .error .UnauthorizedWormholeSource
  else if s.consumedMessages deliveryHash then .error .MessageAlreadyProcessed
  else
    let s1 := { s with consumedMessages := setMap s.consumedMessages deliveryHash true }
    match payload with
    | .depositNotice p => handleDepositNotification c s1 p sourceChain
    | .settleConfirm rfqId => handleSettlementConfirmation c s1 rfqId
    | .badTag _ => .error (.RequireFail "Invalid message type")

/-- `acceptCrossChainRFQ`: the record must exist, be unsettled and
unexpired; mark it settled before any transfer, collect the quote asset for
`quoteTokenRecipient`, and send the settlement confirmation back to the
source chain, paying the return relay fee out of the attached value. -/
def runAccept (c : Ctx) (s : EngineState) (rfqId : B32) : CallResult :=
  let d := s.crossChainDeposits rfqId
  if d.creator = 0 then .error .DepositNotFound
  else if d.settled then .error .DepositAlreadySettled
  else if d.expiryTimestamp < c.timestamp then .error .ExpiredDeposit
  else
    let s' := { s with crossChainDeposits := setMap s.crossChainDeposits rfqId { d with settled := true } }
    let returnCost := c.deliveryCost d.sourceChainId
    if d.quoteToken = ETH then
      if c.msgValue < d.quoteAmount + returnCost then .error .InsufficientWormholeFee
      else
        match sendETH c d.quoteTokenRecipient d.quoteAmount with
        | .error e => .error e
        | .ok outs =>
          .ok (s', ⟨outs, [],
            [⟨d.sourceChainId, s.trustedContracts d.sourceChainId, .settleConfirm rfqId,
              c.msgValue - d.quoteAmount, c.chainid, c.msgSender⟩]⟩)
    else
      if c.msgValue < returnCost then .error .InsufficientWormholeFee
      else
        match erc20TransferFrom c d.quoteToken c.msgSender d.quoteTokenRecipient d.quoteAmount with
        | .error e => .error e
        | .ok ts =>
          .ok (s', ⟨[], ts,
            [⟨d.sourceChainId, s.trustedContracts d.sourceChainId, .settleConfirm rfqId,
              c.msgValue, c.chainid, c.msgSender⟩]⟩)

/-- `reclaimCrossChainDeposit`: creator-only, only after expiry, only while
unsettled; mark settled, then return the base asset to the creator — for a
native base the full current escrow record `ethDeposits[rfqId]`, for an
ERC20 the stored `baseAmount`. -/
def runReclaim (c : Ctx) (s : EngineState) (rfqId : B32) : CallResult :=
  if c.msgValue ≠ 0 then .error .NonPayable
  else
    let d := s.crossChainDeposits rfqId
    if d.creator = 0 then .error .DepositNotFound
    else if d.creator ≠ c.msgSender then .error .NotDepositCreator
    else if d.settled then .error .DepositAlreadySettled
    else if c.timestamp ≤ d.expiryTimestamp then .error .DepositNotExpired
    else
      let s' := { s with crossChainDeposits := setMap s.crossChainDeposits rfqId { d with settled := true } }
      if d.baseToken = ETH then
        match unlockETH c rfqId c.msgSender (s.ethDeposits rfqId) s.ethDeposits with
        | .error e => .error e
        | .ok (m, outs) => .ok ({ s' with ethDeposits := m }, ⟨outs, [], []⟩)
      else
        match erc20TransferFrom c d.baseToken c.self c.msgSender d.baseAmount with
        | .error e => .error e
        | .ok ts => .ok (s', ⟨[], ts, []⟩)

/-- One invocation of a public entry point, with its arguments. -/
inductive Op where
  | deposit (rfqId : B32)
  | withdraw (rfqId : B32)
  | exec (rfqId : B32) (creator baseToken quoteToken : Addr) (baseAmount quoteAmount : Nat)
  | setTrusted (chainId : ChainId) (contractAddress : Addr)
  | initiate (destChainId : ChainId) (baseToken quoteToken : Addr)
      (baseAmount quoteAmount expiryDuration : Nat) (acc rcpt refund : Addr)
  | receive (payload : Payload) (sourceAddress : Addr) (sourceChain : ChainId) (deliveryHash : B32)
  | accept (rfqId : B32)
  | reclaim (rfqId : B32)

/-- Dispatch one entry-point call. -/
def runOp (c : Ctx) (s : EngineState) : Op → CallResult
  | .deposit r => runDepositForRFQ c s r
  | .withdraw r => runWithdrawDeposit c s r
  | .exec r cr bt qt ba qa => runExecute c s r cr bt qt ba qa
  | .setTrusted ch a => runSetTrustedContract c s ch a
  | .initiate d bt qt ba qa ed acc rcpt rf => runInitiate c s d bt qt ba qa ed acc rcpt rf
  | .receive p sa sc h => runReceive c s p sa sc h
  | .accept r => runAccept c s r
  | .reclaim r => runReclaim c s r

/-- The storage after one call: the new storage on success, the unchanged
storage on a revert (the EVM rolls the call back). -/
def stepOp (c : Ctx) (s : EngineState) (op : Op) : EngineState :=
  match runOp c s op with
  | .ok (s', _) => s'
  | .error _ => s

/-- The storage after a sequence of calls, each with its own context. -/
def stepOps : List (Ctx × Op) → EngineState → EngineState
  | [], s => s
  | (c, op) :: rest, s => stepOps rest (stepOp c s op)

/-- Whether a call result is a success. -/
def callOk : CallResult → Bool
  | .ok _ => true
  | .error _ => false

/-- The native-coin sends of a call result (empty on a revert). -/
def ethOutOf : CallResult → List (Addr × Nat)
  | .ok (_, e) => e.ethOut
  | .error _ => []

/-- Credit `v` to account `a`. -/
def creditEth (b : Addr → Nat) (a : Addr) (v : Nat) : Addr → Nat :=
  setMap b a (b a + v)

/-- Debit `v` from account `a`. -/
def debitEth (b : Addr → Nat) (a : Addr) (v : Nat) : Addr → Nat :=
  setMap b a (b a - v)

/-- Apply a call's outgoing native sends to the balance table: each send
moves value from the engine contract (`self`) to its recipient. -/
def applyOut (self : Addr) (b : Addr → Nat) : List (Addr × Nat) → (Addr → Nat)
  | [] => b
  | (toA, v) :: rest => applyOut self (creditEth (debitEth b self v) toA v) rest

/-- Engine storage together with the native-coin balance table, for claims
about caller balances. -/
structure World where
  engine : EngineState
  balances : Addr → Nat

/-- One call at the world level: on success the attached value moves from
the caller to the engine contract and the call's outgoing sends are
applied; a revert changes nothing. -/
def worldStep (c : Ctx) (w : World) (op : Op) : World :=
  match runOp c w.engine op with
  | .error _ => w
  | .ok (s', eff) =>
    ⟨s', applyOut c.self (creditEth (debitEth w.balances c.msgSender c.msgValue) c.self c.msgValue)
      eff.ethOut⟩

/-- Does the call described by `op` (in state `s`, context `c`) store a
whole fresh `CrossChainDeposit` record under key `k`? Only two call paths
do: handling a deposit notification whose payload carries `rfqId = k`, and
an initiation whose derived id is `k` — both write the record
unconditionally, without checking whether a record already lives at `k`. -/
def overwrites (c : Ctx) (s : EngineState) : Op → B32 → Prop
  | .receive (.depositNotice p) _ _ _, k => p.rfqId = k
  | .initiate d _ _ _ _ _ _ _ _, k =>
      c.deriveId c.chainid d c.msgSender (s.chainNonces d) c.timestamp = k
  | _, _ => False

/-- A call sequence in which no call stores a fresh record under `k`. -/
def avoidsKey (k : B32) : List (Ctx × Op) → EngineState → Prop
  | [], _ => True
  | (c, op) :: rest, s => ¬ overwrites c s op k ∧ avoidsKey k rest (stepOp c s op)

/-! Concrete fixtures used by witnesses and counterexamples. The relayer
lives at address `77`, the engine contract at `500`, its owner at `900`;
chain id `1` is the local chain, `5` a remote chain whose trusted
counterpart contract lives at address `9`. -/

/-- A base call context; individual scenarios override fields. -/
def baseCtx : Ctx :=
  ⟨0, 0, 0, 1, 500, 900, 77, fun _ => 10, fun _ => true, fun _ _ _ _ => true,
    fun _ _ _ _ _ => 42⟩

/-- The storage of a freshly deployed engine: every mapping empty. -/
def baseState : EngineState :=
  ⟨fun _ => 0, fun _ => emptyDeposit, fun _ => 0, fun _ => false, fun _ => 0⟩

/-- Storage with chain `5` trusting the counterpart contract at address `9`. -/
def trustedState : EngineState :=
  { baseState with trustedContracts := setMap baseState.trustedContracts 5 9 }

/-- A deposit-notification payload for rfq id `7`: creator `3`, ERC20 base
token `21`, quote token `22`, amounts `100`/`200`, expiry at time `50`,
acceptor-on-source `31`, quote recipient `32`. -/
def noticeParams : DepositNotificationParams := ⟨7, 3, 21, 22, 100, 200, 50, 31, 32⟩

/-- A relayer-originated call context at time `10`. -/
def relayCtx : Ctx := { baseCtx with msgSender := 77, timestamp := 10 }

/-- A relayer-originated call context at time `60`, past the expiry (`50`)
of `noticeParams`. -/
def lateRelayCtx : Ctx := { baseCtx with msgSender := 77, timestamp := 60 }

/-- Storage holding a plain native-coin escrow of `5` under rfq id `7`. -/
def escrowState7 : EngineState :=
  { baseState with ethDeposits := setMap baseState.ethDeposits 7 5 }

/-- An acceptor's call context: address `4`, no attached value. -/
def acceptorCtx : Ctx := { baseCtx with msgSender := 4 }

/-- An acceptor's call context with `5` attached. -/
def acceptorCtx5 : Ctx := { baseCtx with msgSender := 4, msgValue := 5 }

/-- Storage holding an already-settled cross-chain deposit at rfq id `7`,
with chain `5` trusted at address `9`. -/
def settledState7 : EngineState :=
  { baseState with
    trustedContracts := setMap baseState.trustedContracts 5 9,
    crossChainDeposits :=
      setMap baseState.crossChainDeposits 7 ⟨3, 21, 22, 100, 200, 5, 1, 50, true, 31, 32⟩ }

/-- Storage holding an unsettled native-base cross-chain deposit at rfq id
`7` (creator `3`, base amount `100`, expiry `50`) with the matching escrow
of `100` locked under `7`. -/
def nativeDepositState : EngineState :=
  { baseState with
    ethDeposits := setMap baseState.ethDeposits 7 100,
    crossChainDeposits :=
      setMap baseState.crossChainDeposits 7 ⟨3, ETH, 22, 100, 200, 1, 5, 50, false, 31, 32⟩ }

/-- A second deposit-notification payload for rfq id `7`, expiring at `150`. -/
def noticeParams2 : DepositNotificationParams := ⟨7, 3, 21, 22, 100, 200, 150, 31, 32⟩

/-- Creator `3` calling at time `20` (before expiry `50`). -/
def reclaimCtx20 : Ctx := { baseCtx with msgSender := 3, timestamp := 20 }

/-- Creator `3` calling at time `60` (after expiry `50`). -/
def reclaimCtx60 : Ctx := { baseCtx with msgSender := 3, timestamp := 60 }

/-- Non-creator `4` calling at time `60`. -/
def otherCtx60 : Ctx := { baseCtx with msgSender := 4, timestamp := 60 }

/-- The relayer calling at time `100`. -/
def relayCtx100 : Ctx := { baseCtx with msgSender := 77, timestamp := 100 }

/-- Creator `3` calling at time `200`. -/
def reclaimCtx200 : Ctx := { baseCtx with msgSender := 3, timestamp := 200 }

/-- Creator `3` calling at time `1000`. -/
def reclaimCtx1000 : Ctx := { baseCtx with msgSender := 3, timestamp := 1000 }

/-- Creator `3` initiating with `3` attached (below the base amount `5`). -/
def initCtx3 : Ctx := { baseCtx with msgSender := 3, msgValue := 3, timestamp := 10 }

/-- Creator `3` initiating with `6` attached (covers the base amount `5`
but leaves only `1` for the relay fee of `10`). -/
def initCtx6 : Ctx := { baseCtx with msgSender := 3, msgValue := 6, timestamp := 10 }

/-- Creator `3` initiating with `15` attached (covers the base amount `5`
and the relay fee of `10` exactly). -/
def initCtx15 : Ctx := { baseCtx with msgSender := 3, msgValue := 15, timestamp := 10 }

/-- A stranger (`8`) attaching `5` to `depositForRFQ`. -/
def depositOverwriteCtx : Ctx := { baseCtx with msgSender := 8, msgValue := 5 }

/-- A world whose engine storage is empty and where every account holds `50`. -/
def baseWorld : World := ⟨baseState, fun _ => 50⟩

/-- Depositor `3` attaching `5`. -/
def depositCtx5 : Ctx := { baseCtx with msgSender := 3, msgValue := 5 }

/-- Depositor `3` calling with no attached value. -/
def withdrawCtx3 : Ctx := { baseCtx with msgSender := 3 }

set_option maxHeartbeats 2000000 in
/-- Frame lemma: a call that does not store a fresh record under `k` leaves
a settled record at `k` untouched. Every mutation of an existing record
(settle-confirm, accept, reclaim) is guarded by a `DepositAlreadySettled`
check, and the unconditional writes are exactly the `overwrites` cases. -/
theorem frame_settled (c : Ctx) (s : EngineState) (op : Op) (k : B32)
    (hs : (s.crossChainDeposits k).settled = true)
    (hno : ¬ overwrites c s op k) :
    (stepOp c s op).crossChainDeposits k = s.crossChainDeposits k := by
  unfold stepOp
  cases hrun : runOp c s op with
  | error e => rfl
  | ok pair =>
    obtain ⟨s', eff⟩ := pair
    cases op with
    | deposit r =>
      simp only [runOp, runDepositForRFQ] at hrun
      repeat' split at hrun
      all_goals cases hrun
      all_goals rfl
    | withdraw r =>
      simp only [runOp, runWithdrawDeposit] at hrun
      repeat' split at hrun
      all_goals cases hrun
      all_goals rfl
    | exec r cr bt qt ba qa =>
      simp only [runOp, runExecute, validateExecuteParams, validateMsgValue, transferBaseToken,
        transferQuoteToken, unlockETH, lockTokens, sendETH, erc20TransferFrom] at hrun
      repeat' split at hrun
      all_goals cases hrun
      all_goals rfl
    | setTrusted ch a =>
      simp only [runOp, runSetTrustedContract] at hrun
      repeat' split at hrun
      all_goals cases hrun
      all_goals rfl
    | initiate d bt qt ba qa ed acc rcpt rf =>
      simp only [overwrites] at hno
      simp only [runOp, runInitiate, lockTokens, erc20TransferFrom] at hrun
      repeat' split at hrun
      all_goals cases hrun
      all_goals simp only [setMap]
      all_goals split
      all_goals simp_all
    | receive p sa sc dh =>
      cases p with
      | depositNotice prm =>
        simp only [overwrites] at hno
        simp only [runOp, runReceive, handleDepositNotification] at hrun
        repeat' split at hrun
        all_goals cases hrun
        all_goals simp only [setMap]
        all_goals split
        all_goals simp_all
      | settleConfirm r =>
        simp only [runOp, runReceive, handleSettlementConfirmation, unlockETH, sendETH,
          erc20TransferFrom] at hrun
        repeat' split at hrun
        all_goals cases hrun
        all_goals simp only [setMap]
        all_goals split
        all_goals simp_all
      | badTag t =>
        simp only [runOp, runReceive] at hrun
        repeat' split at hrun
        all_goals cases hrun
    | accept r =>
      simp only [runOp, runAccept, sendETH, erc20TransferFrom] at hrun
      repeat' split at hrun
      all_goals cases hrun
      all_goals simp only [setMap]
      all_goals split
      all_goals simp_all
    | reclaim r =>
      simp only [runOp, runReclaim, unlockETH, sendETH, erc20TransferFrom] at hrun
      repeat' split at hrun
      all_goals cases hrun
      all_goals simp only [setMap]
      all_goals split
      all_goals simp_all

/-- Frame lemma over a call sequence: a settled record at `k` survives any
sequence of calls that never stores a fresh record under `k`. -/
theorem frame_settled_list (k : B32) (L : List (Ctx × Op)) (s : EngineState)
    (hs : (s.crossChainDeposits k).settled = true)
    (hL : avoidsKey k L s) :
    (stepOps L s).crossChainDeposits k = s.crossChainDeposits k := by
  induction L generalizing s with
  | nil => rfl
  | cons p rest ih =>
    obtain ⟨c, op⟩ := p
    obtain ⟨h1, h2⟩ := hL
    have hstep := frame_settled c s op k hs h1
    have hs' : ((stepOp c s op).crossChainDeposits k).settled = true := by
      rw [hstep]; exact hs
    calc (stepOps rest (stepOp c s op)).crossChainDeposits k
        = (stepOp c s op).crossChainDeposits k := ih (stepOp c s op) hs' h2
      _ = s.crossChainDeposits k := hstep

/-- A reclaim of a settled record always reverts: every path of
`reclaimCrossChainDeposit` past the guards requires `settled = false`. -/
theorem reclaim_fails_on_settled (c : Ctx) (s : EngineState) (k : B32)
    (hs : (s.crossChainDeposits k).settled = true) :
    callOk (runReclaim c s k) = false := by
  unfold runReclaim
  by_cases h1 : c.msgValue ≠ 0
  · simp [h1, callOk]
  · by_cases h2 : (s.crossChainDeposits k).creator = 0
    · simp [h1, h2, callOk]
    · by_cases h3 : (s.crossChainDeposits k).creator ≠ c.msgSender
      · simp [h1, h2, h3, callOk]
      · simp [h1, h2, h3, hs, callOk]

set_option maxHeartbeats 2000000 in
/-- The consumed-message set is monotone: no call ever clears a consumed
delivery hash. The only write to `consumedMessages` in the engine is the
`true` mark in `receiveWormholeMessages`. -/
theorem consumed_mono (c : Ctx) (s : EngineState) (op : Op) (hx : B32)
    (hc : s.consumedMessages hx = true) :
    (stepOp c s op).consumedMessages hx = true := by
  unfold stepOp
  cases hrun : runOp c s op with
  | error e => exact hc
  | ok pair =>
    obtain ⟨s', eff⟩ := pair
    cases op with
    | deposit r =>
      simp only [runOp, runDepositForRFQ] at hrun
      repeat' split at hrun
      all_goals cases hrun
      all_goals exact hc
    | withdraw r =>
      simp only [runOp, runWithdrawDeposit] at hrun
      repeat' split at hrun
      all_goals cases hrun
      all_goals exact hc
    | exec r cr bt qt ba qa =>
      simp only [runOp, runExecute, validateExecuteParams, validateMsgValue, transferBaseToken,
        transferQuoteToken, unlockETH, lockTokens, sendETH, erc20TransferFrom] at hrun
      repeat' split at hrun
      all_goals cases hrun
      all_goals exact hc
    | setTrusted ch a =>
      simp only [runOp, runSetTrustedContract] at hrun
      repeat' split at hrun
      all_goals cases hrun
      all_goals exact hc
    | initiate d bt qt ba qa ed acc rcpt rf =>
      simp only [runOp, runInitiate, lockTokens, erc20TransferFrom] at hrun
      repeat' split at hrun
      all_goals cases hrun
      all_goals exact hc
    | receive p sa sc dh =>
      simp only [runOp, runReceive, handleDepositNotification, handleSettlementConfirmation,
        unlockETH, sendETH, erc20TransferFrom] at hrun
      repeat' split at hrun
      all_goals cases hrun
      all_goals simp only [setMap]
      all_goals split
      all_goals simp_all
    | accept r =>
      simp only [runOp, runAccept, sendETH, erc20TransferFrom] at hrun
      repeat' split at hrun
      all_goals cases hrun
      all_goals exact hc
    | reclaim r =>
      simp only [runOp, runReclaim, unlockETH, sendETH, erc20TransferFrom] at hrun
      repeat' split at hrun
      all_goals cases hrun
      all_goals exact hc

/-- Consumed-message monotonicity over a whole call sequence. -/
theorem consumed_mono_list (L : List (Ctx × Op)) (s : EngineState) (hx : B32)
    (hc : s.consumedMessages hx = true) :
    (stepOps L s).consumedMessages hx = true := by
  induction L generalizing s with
  | nil => exact hc
  | cons p rest ih =>
    obtain ⟨c, op⟩ := p
    exact ih (stepOp c s op) (consumed_mono c s op hx hc)

set_option maxHeartbeats 1000000 in
/-- A successful `receiveWormholeMessages` call leaves its delivery hash
marked consumed in the post-state. -/
theorem runReceive_marks (c : Ctx) (s : EngineState) (p : Payload) (sa : Addr) (sc : ChainId)
    (dh : B32) (s' : EngineState) (eff : Eff)
    (h : runReceive c s p sa sc dh = .ok (s', eff)) :
    s'.consumedMessages dh = true := by
  simp only [runReceive, handleDepositNotification, handleSettlementConfirmation,
    unlockETH, sendETH, erc20TransferFrom] at h
  repeat' split at h
  all_goals cases h
  all_goals simp [setMap]

/-- A `receiveWormholeMessages` call whose delivery hash is already
consumed reverts with `MessageAlreadyProcessed`, provided it passes the two
authentication checks that run first. -/
theorem runReceive_replay (c : Ctx) (s : EngineState) (p : Payload) (sa : Addr) (sc : ChainId)
    (dh : B32) (hsender : c.msgSender = c.relayer)
    (hsrc : sa = s.trustedContracts sc) (hnz : s.trustedContracts sc ≠ 0)
    (hcons : s.consumedMessages dh = true) :
    runReceive c s p sa sc dh = .error .MessageAlreadyProcessed := by
  simp [runReceive, hsender, hsrc, hnz, hcons]

/-- Claim C1 (counterexample): the settled flag is not monotone over every
sequence of engine operations. Start from a record at rfq id `7` that is
already `settled = true`; a deposit-notification delivery for the same rfq
id from the trusted counterpart (a fresh delivery hash, as an at-least-once
relay can produce) passes `_handleDepositNotification`, which stores a
fresh record unconditionally — resetting `settled` to `false` and rewriting
the record's fields. -/
theorem claim1_counterexample :
    ((settledState7.crossChainDeposits 7).settled = true) ∧
    ((stepOp relayCtx settledState7
        (.receive (.depositNotice noticeParams) 9 5 11)).crossChainDeposits 7).settled = false := by
  constructor
  · rfl
  · rfl

/-- Claim C1 (amended): for every rfq id and every engine operation other
than a deposit-notification delivery carrying that rfq id or an initiation
deriving that same id — the two paths that store a whole fresh record
unconditionally — a record whose `settled` flag is `true` is never modified
in any field, and in particular `settled` is never reset. -/
theorem claim1_settled_immutable (c : Ctx) (s : EngineState) (op : Op) (k : B32)
    (hs : (s.crossChainDeposits k).settled = true)
    (hno : ¬ overwrites c s op k) :
    (stepOp c s op).crossChainDeposits k = s.crossChainDeposits k ∧
    ((stepOp c s op).crossChainDeposits k).settled = true := by
  have h := frame_settled c s op k hs hno
  exact ⟨h, by rw [h]; exact hs⟩

/-- Witness for C1: a reclaim attempt on the settled record at rfq id `7`
leaves the record untouched. -/
theorem claim1_witness :
    (stepOp relayCtx settledState7 (.reclaim 7)).crossChainDeposits 7 =
      settledState7.crossChainDeposits 7 ∧
    ((stepOp relayCtx settledState7 (.reclaim 7)).crossChainDeposits 7).settled = true :=
  claim1_settled_immutable relayCtx settledState7 (.reclaim 7) 7 (by rfl)
    (by simp [overwrites])

/-- Claim C2 (counterexample): the consumed mark does not persist when the
dispatched handler fails and the enclosing call aborts. At time `60` a
deposit notification with expiry `50` passes authentication and the replay
check, is marked consumed, and then the handler reverts `ExpiredDeposit`;
the revert rolls the whole call back — including the mark — so a retry of
the exact same delivery hash fails `ExpiredDeposit` again, not
`MessageAlreadyProcessed` as the claim states. -/
theorem claim2_counterexample :
    runReceive lateRelayCtx trustedState (.depositNotice noticeParams) 9 5 11 =
      .error .ExpiredDeposit ∧
    stepOp lateRelayCtx trustedState (.receive (.depositNotice noticeParams) 9 5 11) =
      trustedState ∧
    runReceive lateRelayCtx
      (stepOp lateRelayCtx trustedState (.receive (.depositNotice noticeParams) 9 5 11))
      (.depositNotice noticeParams) 9 5 11 = .error .ExpiredDeposit :=
  ⟨rfl, rfl, rfl⟩

/-- Claim C2 (amended): when the dispatched handler fails, the enclosing
call aborts and the consumed mark is rolled back with every other effect of
the call, so a retry of the same delivery hash is processed afresh rather
than rejected; the mark persists exactly when the call completes
successfully, and then a retry of the same delivery hash that passes
authentication is rejected with `MessageAlreadyProcessed`. -/
theorem claim2_consumed_rollback
    (c1 c2 c3 : Ctx) (s1 s2 : EngineState) (p1 p2 p3 : Payload)
    (sa1 sa2 sa3 : Addr) (sc1 sc2 sc3 : ChainId) (dh1 dh2 : B32) (e : Err)
    (hfail : runReceive c1 s1 p1 sa1 sc1 dh1 = .error e)
    (hok : callOk (runReceive c2 s2 p2 sa2 sc2 dh2) = true)
    (hsender : c3.msgSender = c3.relayer)
    (hsrc : sa3 = (stepOp c2 s2 (.receive p2 sa2 sc2 dh2)).trustedContracts sc3)
    (hnz : (stepOp c2 s2 (.receive p2 sa2 sc2 dh2)).trustedContracts sc3 ≠ 0) :
    stepOp c1 s1 (.receive p1 sa1 sc1 dh1) = s1 ∧
    runReceive c3 (stepOp c2 s2 (.receive p2 sa2 sc2 dh2)) p3 sa3 sc3 dh2 =
      .error .MessageAlreadyProcessed := by
  constructor
  · unfold stepOp
    simp only [runOp]
    rw [hfail]
  · cases hrun : runReceive c2 s2 p2 sa2 sc2 dh2 with
    | error e2 => rw [hrun] at hok; simp [callOk] at hok
    | ok pair =>
      obtain ⟨s2', eff⟩ := pair
      have hstep : stepOp c2 s2 (.receive p2 sa2 sc2 dh2) = s2' := by
        unfold stepOp; simp only [runOp]; rw [hrun]
      rw [hstep] at hsrc hnz ⊢
      exact runReceive_replay c3 s2' p3 sa3 sc3 dh2 hsender hsrc hnz
        (runReceive_marks c2 s2 p2 sa2 sc2 dh2 s2' eff hrun)

/-- Witness for C2: the failed delivery at time `60` leaves the storage
unchanged, and after the successful delivery at time `10` a retry of hash
`11` is rejected with `MessageAlreadyProcessed`. -/
theorem claim2_witness :
    stepOp lateRelayCtx trustedState (.receive (.depositNotice noticeParams) 9 5 11) =
      trustedState ∧
    runReceive relayCtx
      (stepOp relayCtx trustedState (.receive (.depositNotice noticeParams) 9 5 11))
      (.depositNotice noticeParams) 9 5 11 = .error .MessageAlreadyProcessed :=
  claim2_consumed_rollback lateRelayCtx relayCtx relayCtx trustedState trustedState
    (.depositNotice noticeParams) (.depositNotice noticeParams) (.depositNotice noticeParams)
    9 9 9 5 5 5 11 11 .ExpiredDeposit rfl rfl rfl (by rfl) (by decide)

/-- Claim C3: handler logic runs at most once per delivery hash. After a
first `receiveWormholeMessages` call with hash `dh` has been processed
successfully, every later call with the same hash — after any sequence of
intervening engine operations, with the same or a different payload — that
reaches the replay check (caller is the relayer, source matches the current
registry) fails `MessageAlreadyProcessed`, and the aborted call leaves the
entire storage (escrows, cross-chain deposits, registry, nonces, consumed
set) unchanged. -/
theorem claim3_at_most_once
    (c1 c2 : Ctx) (s : EngineState) (p p' : Payload) (sa sa' : Addr) (sc sc' : ChainId)
    (dh : B32) (ops : List (Ctx × Op))
    (h1 : callOk (runReceive c1 s p sa sc dh) = true)
    (hsender : c2.msgSender = c2.relayer)
    (hsrc : sa' = (stepOps ops (stepOp c1 s (.receive p sa sc dh))).trustedContracts sc')
    (hnz : (stepOps ops (stepOp c1 s (.receive p sa sc dh))).trustedContracts sc' ≠ 0) :
    runReceive c2 (stepOps ops (stepOp c1 s (.receive p sa sc dh))) p' sa' sc' dh =
      .error .MessageAlreadyProcessed ∧
    stepOp c2 (stepOps ops (stepOp c1 s (.receive p sa sc dh))) (.receive p' sa' sc' dh) =
      stepOps ops (stepOp c1 s (.receive p sa sc dh)) := by
  cases hrun : runReceive c1 s p sa sc dh with
  | error e => rw [hrun] at h1; simp [callOk] at h1
  | ok pair =>
    obtain ⟨s1, eff⟩ := pair
    have hstep1 : stepOp c1 s (.receive p sa sc dh) = s1 := by
      unfold stepOp; simp only [runOp]; rw [hrun]
    rw [hstep1] at hsrc hnz ⊢
    have hc : (stepOps ops s1).consumedMessages dh = true :=
      consumed_mono_list ops s1 dh (runReceive_marks c1 s p sa sc dh s1 eff hrun)
    have herr := runReceive_replay c2 (stepOps ops s1) p' sa' sc' dh hsender hsrc hnz hc
    refine ⟨herr, ?_⟩
    unfold stepOp
    simp only [runOp]
    rw [herr]

/-- Witness for C3: deliver a deposit notification under hash `11`, then
retry hash `11` with a different payload (`settleConfirm 7`); the retry is
rejected and changes nothing. -/
theorem claim3_witness :
    runReceive relayCtx
      (stepOps [] (stepOp relayCtx trustedState (.receive (.depositNotice noticeParams) 9 5 11)))
      (.settleConfirm 7) 9 5 11 = .error .MessageAlreadyProcessed ∧
    stepOp relayCtx
      (stepOps [] (stepOp relayCtx trustedState (.receive (.depositNotice noticeParams) 9 5 11)))
      (.receive (.settleConfirm 7) 9 5 11) =
      stepOps [] (stepOp relayCtx trustedState (.receive (.depositNotice noticeParams) 9 5 11)) :=
  claim3_at_most_once relayCtx relayCtx trustedState (.depositNotice noticeParams)
    (.settleConfirm 7) 9 9 5 5 11 [] rfl rfl (by rfl) (by decide)

/-- Claim C5: an `execute` call whose base token is the native sentinel and
whose `baseAmount` strictly exceeds the escrow recorded under `rfqId`
always reverts `InsufficientETHDeposit` — no transfer occurs and no state
changes. (The call must reach the escrow check: parameters valid and the
attached value matching the quote-token rule, which run first.) -/
theorem claim5_insufficient_escrow
    (c : Ctx) (s : EngineState) (k : B32) (creator quoteToken : Addr)
    (baseAmount quoteAmount : Nat)
    (hcr : creator ≠ 0) (hqt : quoteToken ≠ 0)
    (hba : 0 < baseAmount) (hqa : 0 < quoteAmount)
    (hvnat : quoteToken = ETH → c.msgValue = quoteAmount)
    (hvtok : quoteToken ≠ ETH → c.msgValue = 0)
    (hesc : s.ethDeposits k < baseAmount) :
    runExecute c s k creator ETH quoteToken baseAmount quoteAmount =
      .error .InsufficientETHDeposit ∧
    stepOp c s (.exec k creator ETH quoteToken baseAmount quoteAmount) = s := by
  have hETH0 : ETH ≠ 0 := by decide
  have hp : validateExecuteParams creator ETH quoteToken baseAmount quoteAmount = .ok () := by
    simp [validateExecuteParams, hETH0, hqt, hcr,
      Nat.pos_iff_ne_zero.mp hba, Nat.pos_iff_ne_zero.mp hqa]
  have hv : validateMsgValue c quoteToken quoteAmount = .ok () := by
    by_cases hq : quoteToken = ETH
    · simp [validateMsgValue, hq, hvnat hq]
    · simp [validateMsgValue, hq, hvtok hq]
  have hmain : runExecute c s k creator ETH quoteToken baseAmount quoteAmount =
      .error .InsufficientETHDeposit := by
    simp only [runExecute, hp, hv, transferBaseToken, unlockETH]
    simp [hesc]
  refine ⟨hmain, ?_⟩
  unfold stepOp
  simp only [runOp]
  rw [hmain]

/-- Witness for C5: with an empty escrow, acceptor `4` executing a
native-base trade of `baseAmount = 1` fails `InsufficientETHDeposit` and
leaves the storage unchanged. -/
theorem claim5_witness :
    runExecute acceptorCtx baseState 7 3 ETH 22 1 200 = .error .InsufficientETHDeposit ∧
    stepOp acceptorCtx baseState (.exec 7 3 ETH 22 1 200) = baseState :=
  claim5_insufficient_escrow acceptorCtx baseState 7 3 22 1 200
    (by decide) (by decide) (by decide) (by decide) (by decide) (fun _ => rfl) (by decide)

/-- Claim C6: `withdrawDeposit` performs no depositor check — any caller
whose low-level receive succeeds withdraws the full recorded amount, and
the record is zeroed; moreover `depositForRFQ` stores no depositor: its
outcome is a function of the attached value alone, independent of the
caller. -/
theorem claim6_withdraw_any_caller
    (c c1 c2 : Ctx) (s : EngineState) (k : B32)
    (hm : s.ethDeposits k ≠ 0) (hv : c.msgValue = 0) (hr : c.recvOk c.msgSender = true)
    (hv12 : c1.msgValue = c2.msgValue) :
    runWithdrawDeposit c s k =
      .ok ({ s with ethDeposits := setMap s.ethDeposits k 0 },
        ⟨[(c.msgSender, s.ethDeposits k)], [], []⟩) ∧
    runDepositForRFQ c1 s k = runDepositForRFQ c2 s k := by
  constructor
  · simp [runWithdrawDeposit, hv, hm, hr]
  · simp [runDepositForRFQ, hv12]

/-- Witness for C6: address `4` (not the depositor) withdraws the escrow of
`5` under rfq id `7`; and two deposits of `6` from different senders (`3`
and `4`) produce identical call results. -/
theorem claim6_witness :
    runWithdrawDeposit acceptorCtx escrowState7 7 =
      .ok ({ escrowState7 with ethDeposits := setMap escrowState7.ethDeposits 7 0 },
        ⟨[(acceptorCtx.msgSender, escrowState7.ethDeposits 7)], [], []⟩) ∧
    runDepositForRFQ { baseCtx with msgSender := 3, msgValue := 6 } escrowState7 7 =
      runDepositForRFQ { baseCtx with msgSender := 4, msgValue := 6 } escrowState7 7 :=
  claim6_withdraw_any_caller acceptorCtx { baseCtx with msgSender := 3, msgValue := 6 }
    { baseCtx with msgSender := 4, msgValue := 6 } escrowState7 7
    (by decide) rfl rfl rfl

/-- Claim C8: `execute` value validation. With valid parameters: when the
quote token is the native sentinel the call passes `_validateMsgValue` iff
the attached value equals `quoteAmount`, otherwise reverting
`ETHAmountMismatch`; when the quote token is not native the attached value
must be zero, otherwise the call reverts `UnexpectedETHSent`; both reverts
happen before any transfer and change no state. -/
theorem claim8_value_validation
    (c : Ctx) (s : EngineState) (k : B32) (creator baseToken quoteToken : Addr)
    (baseAmount quoteAmount : Nat)
    (hb : baseToken ≠ 0) (hq : quoteToken ≠ 0) (hba : 0 < baseAmount) (hqa : 0 < quoteAmount)
    (hcr : creator ≠ 0) :
    (validateMsgValue c quoteToken quoteAmount = .ok () ↔
      (if quoteToken = ETH then c.msgValue = quoteAmount else c.msgValue = 0)) ∧
    (quoteToken = ETH → c.msgValue ≠ quoteAmount →
      runExecute c s k creator baseToken quoteToken baseAmount quoteAmount =
        .error .ETHAmountMismatch ∧
      stepOp c s (.exec k creator baseToken quoteToken baseAmount quoteAmount) = s) ∧
    (quoteToken ≠ ETH → 0 < c.msgValue →
      runExecute c s k creator baseToken quoteToken baseAmount quoteAmount =
        .error .UnexpectedETHSent ∧
      stepOp c s (.exec k creator baseToken quoteToken baseAmount quoteAmount) = s) := by
  have hp : validateExecuteParams creator baseToken quoteToken baseAmount quoteAmount = .ok () := by
    simp [validateExecuteParams, hb, hq, hcr,
      Nat.pos_iff_ne_zero.mp hba, Nat.pos_iff_ne_zero.mp hqa]
  refine ⟨?_, ?_, ?_⟩
  · unfold validateMsgValue
    split_ifs <;> simp_all
    omega
  · intro hqe hne
    subst hqe
    have hmain : runExecute c s k creator baseToken ETH baseAmount quoteAmount =
        .error .ETHAmountMismatch := by
      simp only [runExecute, hp, validateMsgValue]
      simp [hne]
    refine ⟨hmain, ?_⟩
    unfold stepOp
    simp only [runOp]
    rw [hmain]
  · intro hqe hpos
    have hmain : runExecute c s k creator baseToken quoteToken baseAmount quoteAmount =
        .error .UnexpectedETHSent := by
      simp only [runExecute, hp, validateMsgValue]
      simp [hqe, hpos]
    refine ⟨hmain, ?_⟩
    unfold stepOp
    simp only [runOp]
    rw [hmain]

/-- Witness for C8: with `5` attached, a native-quote trade expecting `200`
fails `ETHAmountMismatch`, and an ERC20-quote trade fails
`UnexpectedETHSent`; both leave the storage unchanged. -/
theorem claim8_witness :
    (runExecute acceptorCtx5 baseState 7 3 21 ETH 1 200 = .error .ETHAmountMismatch ∧
      stepOp acceptorCtx5 baseState (.exec 7 3 21 ETH 1 200) = baseState) ∧
    (runExecute acceptorCtx5 baseState 7 3 21 22 1 200 = .error .UnexpectedETHSent ∧
      stepOp acceptorCtx5 baseState (.exec 7 3 21 22 1 200) = baseState) :=
  ⟨(claim8_value_validation acceptorCtx5 baseState 7 3 21 ETH 1 200
      (by decide) (by decide) (by decide) (by decide) (by decide)).2.1 rfl (by decide),
   (claim8_value_validation acceptorCtx5 baseState 7 3 21 22 1 200
      (by decide) (by decide) (by decide) (by decide) (by decide)).2.2 (by decide) (by decide)⟩

/-- Claim C4 (counterexample): a reclaim does not succeed only once. A
deposit-notification delivery creates a record at rfq id `7`; its creator
reclaims it after expiry; a second notification for the same rfq id (fresh
delivery hash, later expiry `150`) re-creates the record with
`settled = false`; after the new expiry the creator reclaims again — the
second reclaim also succeeds, so "succeeds exactly once and every
subsequent reclaim fails" is refuted. -/
theorem claim4_counterexample :
    callOk (runOp reclaimCtx60
      (stepOp relayCtx trustedState (.receive (.depositNotice noticeParams) 9 5 11))
      (.reclaim 7)) = true ∧
    callOk (runOp reclaimCtx200
      (stepOp relayCtx100
        (stepOp reclaimCtx60
          (stepOp relayCtx trustedState (.receive (.depositNotice noticeParams) 9 5 11))
          (.reclaim 7))
        (.receive (.depositNotice noticeParams2) 9 5 12))
      (.reclaim 7)) = true := by
  exact ⟨rfl, rfl⟩

/-- Claim C4 (amended): `reclaimCrossChainDeposit(rfqId)` — a call by the
creator on an existing unsettled record before expiry fails
`DepositNotExpired`; a call by any other address on an existing record
fails `NotDepositCreator`; a call by the creator after expiry on an
existing, unsettled native-base record whose escrow entry is untouched
succeeds, sends the full locked base amount to the creator, marks the
record settled and zeroes the escrow; and every subsequent reclaim fails,
provided no deposit-notification for that rfq id (nor an initiation
deriving it) re-creates the record in between. -/
theorem claim4_reclaim
    (ca cb cc cd : Ctx) (s : EngineState) (k : B32) (L : List (Ctx × Op))
    (hav : ca.msgValue = 0)
    (hacr : (s.crossChainDeposits k).creator = ca.msgSender)
    (hcr0 : (s.crossChainDeposits k).creator ≠ 0)
    (hset : (s.crossChainDeposits k).settled = false)
    (haexp : ca.timestamp ≤ (s.crossChainDeposits k).expiryTimestamp)
    (hbv : cb.msgValue = 0)
    (hbne : (s.crossChainDeposits k).creator ≠ cb.msgSender)
    (hcv : cc.msgValue = 0)
    (hccr : (s.crossChainDeposits k).creator = cc.msgSender)
    (hcexp : (s.crossChainDeposits k).expiryTimestamp < cc.timestamp)
    (hnat : (s.crossChainDeposits k).baseToken = ETH)
    (hfull : s.ethDeposits k = (s.crossChainDeposits k).baseAmount)
    (hrecv : cc.recvOk cc.msgSender = true)
    (hL : avoidsKey k L (stepOp cc s (.reclaim k))) :
    runReclaim ca s k = .error .DepositNotExpired ∧
    runReclaim cb s k = .error .NotDepositCreator ∧
    (callOk (runReclaim cc s k) = true ∧
      ethOutOf (runReclaim cc s k) = [(cc.msgSender, (s.crossChainDeposits k).baseAmount)] ∧
      ((stepOp cc s (.reclaim k)).crossChainDeposits k).settled = true ∧
      (stepOp cc s (.reclaim k)).ethDeposits k = 0) ∧
    callOk (runOp cd (stepOps L (stepOp cc s (.reclaim k))) (.reclaim k)) = false := by
  have ha0 : ca.msgSender ≠ 0 := hacr ▸ hcr0
  have hc0 : cc.msgSender ≠ 0 := hccr ▸ hcr0
  have hnexp : ¬ cc.timestamp ≤ (s.crossChainDeposits k).expiryTimestamp :=
    Nat.not_le.mpr hcexp
  have hsettled' : ((stepOp cc s (.reclaim k)).crossChainDeposits k).settled = true := by
    simp [stepOp, runOp, runReclaim, hcv, hccr, hc0, hset, hnexp, hnat, hrecv,
      unlockETH, sendETH, setMap]
  refine ⟨?_, ?_, ⟨?_, ?_, hsettled', ?_⟩, ?_⟩
  · simp [runReclaim, hav, hacr, ha0, hset, haexp]
  · simp [runReclaim, hbv, hcr0, hbne]
  · simp [runReclaim, callOk, hcv, hccr, hc0, hset, hnexp, hnat, hrecv, unlockETH, sendETH]
  · simp [runReclaim, ethOutOf, hcv, hccr, hc0, hset, hnexp, hnat, hrecv,
      unlockETH, sendETH, hfull]
  · simp [stepOp, runOp, runReclaim, hcv, hccr, hc0, hset, hnexp, hnat, hrecv,
      unlockETH, sendETH, setMap]
  · have hpres := frame_settled_list k L (stepOp cc s (.reclaim k)) hsettled' hL
    simp only [runOp]
    exact reclaim_fails_on_settled cd (stepOps L (stepOp cc s (.reclaim k))) k
      (by rw [hpres]; exact hsettled')

/-- Witness for C4: on the native deposit at rfq id `7` (creator `3`,
amount `100`, expiry `50`): creator at time `20` gets `DepositNotExpired`;
address `4` gets `NotDepositCreator`; creator at time `60` succeeds,
receives the `100`, the record settles and the escrow reads `0`; the
creator's immediate retry fails. -/
theorem claim4_witness :
    runReclaim reclaimCtx20 nativeDepositState 7 = .error .DepositNotExpired ∧
    runReclaim otherCtx60 nativeDepositState 7 = .error .NotDepositCreator ∧
    (callOk (runReclaim reclaimCtx60 nativeDepositState 7) = true ∧
      ethOutOf (runReclaim reclaimCtx60 nativeDepositState 7) = [(3, 100)] ∧
      ((stepOp reclaimCtx60 nativeDepositState (.reclaim 7)).crossChainDeposits 7).settled = true ∧
      (stepOp reclaimCtx60 nativeDepositState (.reclaim 7)).ethDeposits 7 = 0) ∧
    callOk (runOp reclaimCtx200
      (stepOps [] (stepOp reclaimCtx60 nativeDepositState (.reclaim 7))) (.reclaim 7)) = false :=
  claim4_reclaim reclaimCtx20 otherCtx60 reclaimCtx60 reclaimCtx200 nativeDepositState 7 []
    rfl rfl (by decide) rfl (by decide) rfl (by decide) rfl rfl (by decide) rfl rfl rfl True.intro

/-- Claim C7 (counterexample): an `initiateCrossChainDeposit` with native
base whose attached value does not even cover the locked `baseAmount`
fails `InvalidDepositAmount` (raised in `TokenTransfer.lockTokens`), not
`InsufficientWormholeFee` as the claim states: attached `3` against
`baseAmount = 5` and delivery cost `10`. -/
theorem claim7_counterexample :
    runInitiate initCtx3 trustedState 5 ETH 22 5 200 900 31 32 3 =
      .error .InvalidDepositAmount := rfl

/-- Claim C7 (amended): for a valid native-base initiation, if the attached
value is below `baseAmount` the call fails `InvalidDepositAmount`; if it
covers `baseAmount` but the remainder is below the relay's quoted delivery
cost it fails `InsufficientWormholeFee`; whenever the attached value is
below `baseAmount` plus the delivery cost the call has no effect — no
escrow lock, no deposit record, no nonce change. -/
theorem claim7_native_fee
    (c : Ctx) (s : EngineState) (dest : ChainId) (quoteToken : Addr)
    (baseAmount quoteAmount dur : Nat) (acc rcpt refund : Addr)
    (hdest : dest ≠ 0) (htr : s.trustedContracts dest ≠ 0) (hq : quoteToken ≠ 0)
    (hba : baseAmount ≠ 0) (hqa : quoteAmount ≠ 0)
    (hdur : MINIMUM_EXPIRY_DURATION ≤ dur) (hacc : acc ≠ 0) (hr : rcpt ≠ 0) :
    (c.msgValue < baseAmount →
      runInitiate c s dest ETH quoteToken baseAmount quoteAmount dur acc rcpt refund =
        .error .InvalidDepositAmount) ∧
    (baseAmount ≤ c.msgValue → c.msgValue - baseAmount < c.deliveryCost dest →
      runInitiate c s dest ETH quoteToken baseAmount quoteAmount dur acc rcpt refund =
        .error .InsufficientWormholeFee) ∧
    (c.msgValue < baseAmount + c.deliveryCost dest →
      stepOp c s (.initiate dest ETH quoteToken baseAmount quoteAmount dur acc rcpt refund) = s) := by
  have hETH0 : ETH ≠ 0 := by decide
  have hndur : ¬ dur < MINIMUM_EXPIRY_DURATION := Nat.not_lt.mpr hdur
  have herr1 : c.msgValue < baseAmount →
      runInitiate c s dest ETH quoteToken baseAmount quoteAmount dur acc rcpt refund =
        .error .InvalidDepositAmount := by
    intro hlt
    simp [runInitiate, hdest, htr, hETH0, hq, hba, hqa, hndur, hacc, hr, lockTokens, hlt]
  have herr2 : baseAmount ≤ c.msgValue → c.msgValue - baseAmount < c.deliveryCost dest →
      runInitiate c s dest ETH quoteToken baseAmount quoteAmount dur acc rcpt refund =
        .error .InsufficientWormholeFee := by
    intro hge hlt
    have h1 : ¬ c.msgValue < baseAmount := Nat.not_lt.mpr hge
    simp [runInitiate, hdest, htr, hETH0, hq, hba, hqa, hndur, hacc, hr, lockTokens, h1, hlt]
  refine ⟨herr1, herr2, ?_⟩
  intro htot
  unfold stepOp
  simp only [runOp]
  by_cases hlt : c.msgValue < baseAmount
  · rw [herr1 hlt]
  · rw [herr2 (Nat.not_lt.mp hlt) (by omega)]

/-- Witness for C7: with `3` attached the initiation fails
`InvalidDepositAmount` and leaves the storage unchanged; with `6` attached
(base `5` covered, remainder `1` below the cost `10`) it fails
`InsufficientWormholeFee`. -/
theorem claim7_witness :
    runInitiate initCtx3 trustedState 5 ETH 22 5 200 900 31 32 3 =
      .error .InvalidDepositAmount ∧
    runInitiate initCtx6 trustedState 5 ETH 22 5 200 900 31 32 3 =
      .error .InsufficientWormholeFee ∧
    stepOp initCtx3 trustedState (.initiate 5 ETH 22 5 200 900 31 32 3) = trustedState :=
  ⟨(claim7_native_fee initCtx3 trustedState 5 22 5 200 900 31 32 3
      (by decide) (by decide) (by decide) (by decide) (by decide) (by decide) (by decide)
      (by decide)).1 (by decide),
   (claim7_native_fee initCtx6 trustedState 5 22 5 200 900 31 32 3
      (by decide) (by decide) (by decide) (by decide) (by decide) (by decide) (by decide)
      (by decide)).2.1 (by decide) (by decide),
   (claim7_native_fee initCtx3 trustedState 5 22 5 200 900 31 32 3
      (by decide) (by decide) (by decide) (by decide) (by decide) (by decide) (by decide)
      (by decide)).2.2 (by decide)⟩

/-- Claim C10 (counterexample): the "released amount equals `baseAmount`
only if no `depositForRFQ` overwrote the escrow entry" direction fails: a
`depositForRFQ` with the same value (`5`) does overwrite the entry after
initiation (base amount `5`, id `42`), and the reclaim after expiry still
releases `5 = baseAmount`. -/
theorem claim10_counterexample :
    callOk (runOp depositOverwriteCtx
      (stepOp initCtx15 trustedState (.initiate 5 ETH 22 5 200 900 31 32 3))
      (.deposit 42)) = true ∧
    ethOutOf (runOp reclaimCtx1000
      (stepOp depositOverwriteCtx
        (stepOp initCtx15 trustedState (.initiate 5 ETH 22 5 200 900 31 32 3))
        (.deposit 42))
      (.reclaim 42)) = [(3, 5)] ∧
    ((stepOp depositOverwriteCtx
        (stepOp initCtx15 trustedState (.initiate 5 ETH 22 5 200 900 31 32 3))
        (.deposit 42)).crossChainDeposits 42).baseAmount = 5 := by
  exact ⟨rfl, rfl, rfl⟩

/-- Claim C10 (amended): for a native-base deposit record, both the
settlement-confirmation handler and `reclaimCrossChainDeposit` release
exactly the amount currently recorded under `ethDeposits[rfqId]` at call
time — not the record's stored `baseAmount` — and whenever the escrow
entry still equals `baseAmount` (in particular when no `depositForRFQ`
overwrote it after initiation) the released amount equals `baseAmount`. -/
theorem claim10_release_amount
    (c c' : Ctx) (s : EngineState) (k : B32)
    (hcr : (s.crossChainDeposits k).creator ≠ 0)
    (hset : (s.crossChainDeposits k).settled = false)
    (hnat : (s.crossChainDeposits k).baseToken = ETH)
    (hrecv : c.recvOk (s.crossChainDeposits k).acceptorOnSourceChain = true)
    (hv' : c'.msgValue = 0)
    (hcr' : (s.crossChainDeposits k).creator = c'.msgSender)
    (hexp' : (s.crossChainDeposits k).expiryTimestamp < c'.timestamp)
    (hrecv' : c'.recvOk c'.msgSender = true) :
    ethOutOf (handleSettlementConfirmation c s k) =
      [((s.crossChainDeposits k).acceptorOnSourceChain, s.ethDeposits k)] ∧
    ethOutOf (runReclaim c' s k) = [(c'.msgSender, s.ethDeposits k)] ∧
    (s.ethDeposits k = (s.crossChainDeposits k).baseAmount →
      ethOutOf (handleSettlementConfirmation c s k) =
        [((s.crossChainDeposits k).acceptorOnSourceChain, (s.crossChainDeposits k).baseAmount)] ∧
      ethOutOf (runReclaim c' s k) = [(c'.msgSender, (s.crossChainDeposits k).baseAmount)]) := by
  have hc0 : c'.msgSender ≠ 0 := hcr' ▸ hcr
  have hnexp : ¬ c'.timestamp ≤ (s.crossChainDeposits k).expiryTimestamp :=
    Nat.not_le.mpr hexp'
  have h1 : ethOutOf (handleSettlementConfirmation c s k) =
      [((s.crossChainDeposits k).acceptorOnSourceChain, s.ethDeposits k)] := by
    simp [handleSettlementConfirmation, ethOutOf, hcr, hset, hnat, hrecv, unlockETH, sendETH]
  have h2 : ethOutOf (runReclaim c' s k) = [(c'.msgSender, s.ethDeposits k)] := by
    simp [runReclaim, ethOutOf, hv', hcr', hc0, hset, hnexp, hnat, hrecv', unlockETH, sendETH]
  exact ⟨h1, h2, fun hfull => ⟨hfull ▸ h1, hfull ▸ h2⟩⟩

/-- Witness for C10: on the native deposit at rfq id `7` (escrow `100`
equal to the base amount), the settlement-confirmation handler releases
`100` to the acceptor-on-source (`31`) and a creator reclaim at time `60`
releases `100` to the creator (`3`). -/
theorem claim10_witness :
    ethOutOf (handleSettlementConfirmation relayCtx nativeDepositState 7) = [(31, 100)] ∧
    ethOutOf (runReclaim reclaimCtx60 nativeDepositState 7) = [(3, 100)] :=
  ⟨(claim10_release_amount relayCtx reclaimCtx60 nativeDepositState 7
      (by decide) rfl rfl rfl rfl rfl (by decide) rfl).1,
   (claim10_release_amount relayCtx reclaimCtx60 nativeDepositState 7
      (by decide) rfl rfl rfl rfl rfl (by decide) rfl).2.1⟩

/-- Claim C9 (round-trip law): `depositForRFQ(rfqId)` with attached value
`A > 0` followed immediately by `withdrawDeposit(rfqId)` from the same
caller returns exactly `A` to the caller — the caller's balance equals its
value before the deposit — and leaves the escrow record for `rfqId`
cleared. -/
theorem claim9_round_trip
    (cd cw : Ctx) (w : World) (k : B32) (a self : Addr) (A : Nat)
    (hds : cd.msgSender = a) (hdv : cd.msgValue = A) (hdself : cd.self = self)
    (hws : cw.msgSender = a) (hwv : cw.msgValue = 0) (hwself : cw.self = self)
    (hrecv : cw.recvOk a = true) (hA : 0 < A) (hne : a ≠ self) (hbal : A ≤ w.balances a) :
    (worldStep cw (worldStep cd w (.deposit k)) (.withdraw k)).balances a = w.balances a ∧
    (worldStep cw (worldStep cd w (.deposit k)) (.withdraw k)).engine.ethDeposits k = 0 ∧
    ethOutOf (runOp cw (worldStep cd w (.deposit k)).engine (.withdraw k)) = [(a, A)] := by
  have hA0 : A ≠ 0 := Nat.pos_iff_ne_zero.mp hA
  have hne' : self ≠ a := hne.symm
  refine ⟨?_, ?_, ?_⟩ <;>
    simp [worldStep, runOp, runDepositForRFQ, runWithdrawDeposit, applyOut, creditEth,
      debitEth, setMap, ethOutOf, noEff, hds, hdv, hdself, hws, hwv, hwself, hrecv, hA0,
      hne, hne', Nat.sub_add_cancel hbal]

/-- Witness for C9: account `3` (holding `50`) deposits `5` under rfq id
`7` and withdraws it; its balance is back to `50`, the escrow reads `0`,
and the withdrawal sent exactly `(3, 5)`. -/
theorem claim9_witness :
    (worldStep withdrawCtx3 (worldStep depositCtx5 baseWorld (.deposit 7))
      (.withdraw 7)).balances 3 = baseWorld.balances 3 ∧
    (worldStep withdrawCtx3 (worldStep depositCtx5 baseWorld (.deposit 7))
      (.withdraw 7)).engine.ethDeposits 7 = 0 ∧
    ethOutOf (runOp withdrawCtx3 (worldStep depositCtx5 baseWorld (.deposit 7)).engine
      (.withdraw 7)) = [(3, 5)] :=
  claim9_round_trip depositCtx5 withdrawCtx3 baseWorld 7 3 500 5
    rfl rfl rfl rfl rfl rfl rfl (by decide) (by decide) (by decide)

end RFQ
